import Mathlib

/-!
Verification of the sample-data-generator repository (src/main.py) against its
natural-language specification.

The Python program is shallowly embedded as follows.

* The process-wide Faker randomness source is modelled as an infinite stream of
  natural numbers `Rng := Nat → Nat` together with an explicit draw index that
  each sampling call consumes and advances.  `faker.random_int(lo, hi)`
  (Python `random.randrange(lo, hi+1)`) succeeds with a value in `[lo, hi]`
  when `lo ≤ hi` and raises `ValueError` ("empty range") otherwise; it is
  modelled by `random_int`, returning `Option Int` (`none` = the raised
  exception).  `faker.date_time_between(a, b)` draws an epoch-seconds
  timestamp in `[a, b]` the same way; timestamps are epoch seconds (`Int`) and
  `timedelta(days = d)` is `d * 86400` seconds.
* `faker.city()` / `faker.country()` each consume one draw; since no claim
  inspects the produced text, the customer row stores the raw draw.
* The filesystem (the output directory) is a map from file name to the
  written CSV file.  The spec treats general-purpose CSV writing as an
  external collaborator with a simple contract, so a written file is modelled
  at the record level (`CsvFile`): the header — the field names of the first
  record, in their iteration order — plus the record rows `csv.DictWriter`
  serializes, one per record; the textual quoting/escaping of the csv library
  itself is not modelled.
-/

namespace SDG

/-- An infinite stream of raw draws standing for the process-wide random
source; the natural number at each index is the entropy consumed by one
sampling call. -/
def Rng : Type := Nat → Nat

/-- `faker.random_int(lo, hi)` = `random.randrange(lo, hi + 1)`: uniform on
`[lo, hi]` when `lo ≤ hi`, raises `ValueError` (modelled `none`) when the
range is empty.  The draw at index `k` is reduced into the range. -/
def random_int (g : Rng) (k : Nat) (lo hi : Int) : Option Int :=
  if hi < lo then none else some (lo + (g k : Int) % (hi - lo + 1))

/-- `faker.date_time_between(startSec, endSec)`: an epoch-seconds timestamp
drawn from the inclusive range, failing the same way on an empty range. -/
def date_time_between (g : Rng) (k : Nat) (startSec endSec : Int) : Option Int :=
  random_int g k startSec endSec

/-- A CSV cell value: the Python rows hold ints, strings and float prices
(float literals with two fractional digits, represented exactly as
rationals). -/
inductive CsvValue where
  | int (i : Int)
  | str (s : String)
  | rat (q : ℚ)
deriving DecidableEq

/-- A row as built by the Python code: an insertion-ordered dict from field
name to value. -/
abbrev Row : Type := List (String × CsvValue)

/-- A written CSV file at the record level: the header (the field names of
the first record, in their iteration order) and the serialized record rows. -/
abbrev CsvFile : Type := List String × List Row

/-- The output directory: file name ↦ written file (`none` = no such file). -/
def FS : Type := String → Option CsvFile

/-- The empty, freshly created output directory. -/
def fs_empty : FS := fun _ => none

/-- `write_to_csv(file_name, rows)`: no-op on an empty row list, otherwise
(over)writes the file with a header made of the first row's field names
followed by the rows themselves. -/
def write_to_csv (fs : FS) (file_name : String) (rows : List Row) : FS :=
  match rows with
  | [] => fs
  | r :: _ =>
    let field_names := r.map (fun p => p.1)
    fun n => if n = file_name then some (field_names, rows) else fs n

/-- The rows `write_list_to_csv` builds: `{"id": i + 1, field_name: item}`
for each `(i, item)` in `enumerate(values)`. -/
def enumerated_rows (field_name : String) (values : List String) : List Row :=
  values.enum.map (fun p => [("id", CsvValue.int (p.1 + 1)), (field_name, CsvValue.str p.2)])

/-- `write_list_to_csv(file_name, field_name, values)`. -/
def write_list_to_csv (fs : FS) (file_name field_name : String)
    (values : List String) : FS :=
  write_to_csv fs file_name (enumerated_rows field_name values)

/-- The fixed shipping-method list of `generate_shipping_methods`. -/
def shipping_methods_list : List String :=
  ["Standard", "Next Business Day", "Saturday AM", "Saturday PM"]

/-- `generate_shipping_methods()`: writes the fixed list, returns its length. -/
def generate_shipping_methods (fs : FS) : FS × Int :=
  (write_list_to_csv fs "shipping_method.csv" "name" shipping_methods_list,
   (shipping_methods_list.length : Int))

/-- The fixed courier list of `generate_couriers`. -/
def couriers_list : List String :=
  ["Cheap & Cheerful Delivery", "Speedy Parcel Delivery", "Local Delivery Partners"]

/-- `generate_couriers()`: writes the fixed list, returns its length. -/
def generate_couriers (fs : FS) : FS × Int :=
  (write_list_to_csv fs "courier.csv" "name" couriers_list,
   (couriers_list.length : Int))

/-- A customer row `{"id": i + 1, "city": faker.city(), "country":
faker.country()}`; the two faker draws are stored raw (no claim inspects the
generated text). -/
structure Customer where
  id : Int
  city : Nat
  country : Nat
deriving DecidableEq

/-- The loop body of `generate_customers`: one customer per iteration, id
starting at 1, two draws (city, country) per customer. -/
def customers_loop (g : Rng) : Nat → Int → Nat → List Customer
  | 0, _, _ => []
  | n + 1, id, k => ⟨id, g k, g (k + 1)⟩ :: customers_loop g n (id + 1) (k + 2)

/-- The customer rows built by `generate_customers(number_of_customers)`. -/
def generate_customers_rows (g : Rng) (number_of_customers : Nat) : List Customer :=
  customers_loop g number_of_customers 1 0

/-- The serialized form of a customer row. -/
def customer_row (c : Customer) : Row :=
  [("id", CsvValue.int c.id), ("city", CsvValue.int c.city),
   ("country", CsvValue.int c.country)]

/-- `generate_customers(number_of_customers)`: builds the rows, writes
`customer.csv`, and — having no `return` statement — returns Python `None`
(modelled as `(none : Option Int)`, the value `main` later binds). -/
def generate_customers (g : Rng) (fs : FS) (number_of_customers : Nat) :
    FS × Option Int :=
  (write_to_csv fs "customer.csv"
    ((generate_customers_rows g number_of_customers).map customer_row), none)

/-- The `Product` dataclass: a name and a price.  Python float literals with
two fractional digits are represented exactly as rationals. -/
structure Product where
  name : String
  price : ℚ
deriving DecidableEq

/-- `get_product_hierarchy()`: the static three-level hierarchy, in the
insertion order of the Python dict literals. -/
def get_product_hierarchy : List (String × List (String × List Product)) :=
  [("Home & Garden",
    [("Garden Furniture",
      [⟨"Table and chair set", 299.99⟩, ⟨"Patio Heater", 199.99⟩]),
     ("Home Furnishing",
      [⟨"Curtains", 89.99⟩, ⟨"Cushions", 19.99⟩])]),
   ("Electronics",
    [("TV",
      [⟨"50 inch 4K TV", 399.99⟩, ⟨"TV Soundbar", 99.99⟩]),
     ("Audio",
      [⟨"Portable Bluetooth Speaker", 49.99⟩, ⟨"Premium Smart Speaker", 399.99⟩])]),
   ("Clothing",
    [("Menswear", [⟨"Mens Jeans", 39.99⟩, ⟨"Mens Shorts", 19.99⟩]),
     ("Womenswear", [⟨"Womens Jeans", 39.99⟩, ⟨"Blouse", 24.99⟩])])]

/-- A `category.csv` row. -/
structure Category where
  id : Int
  name : String
deriving DecidableEq

/-- A `sub_category.csv` row. -/
structure SubCategory where
  id : Int
  category_id : Int
  name : String
deriving DecidableEq

/-- A `product.csv` row. -/
structure ProductRow where
  id : Int
  sub_category_id : Int
  name : String
  price : ℚ
deriving DecidableEq

/-- The innermost loop of `generate_products`: one `ProductRow` per product of
a sub-category, `product_id` incremented after each append. -/
def expand_products (sub_category_id : Int) : Int → List Product → List ProductRow
  | _, [] => []
  | product_id, p :: ps =>
    ⟨product_id, sub_category_id, p.name, p.price⟩ ::
      expand_products sub_category_id (product_id + 1) ps

/-- The middle loop of `generate_products`: one `SubCategory` row per
sub-category, its products expanded inline; returns the rows plus the
counters' final values. -/
def expand_subs (category_id : Int) :
    List (String × List Product) → Int → Int →
      List SubCategory × List ProductRow × Int × Int
  | [], sub_category_id, product_id => ([], [], sub_category_id, product_id)
  | (name, product_set) :: rest, sub_category_id, product_id =>
    let prods := expand_products sub_category_id product_id product_set
    let r := expand_subs category_id rest (sub_category_id + 1)
      (product_id + product_set.length)
    (⟨sub_category_id, category_id, name⟩ :: r.1, prods ++ r.2.1, r.2.2)

/-- The outer loop of `generate_products`: one `Category` row per category. -/
def expand_categories :
    List (String × List (String × List Product)) → Int → Int → Int →
      List Category × List SubCategory × List ProductRow
  | [], _, _, _ => ([], [], [])
  | (name, subs) :: rest, category_id, sub_category_id, product_id =>
    let s := expand_subs category_id subs sub_category_id product_id
    let r := expand_categories rest (category_id + 1) s.2.2.1 s.2.2.2
    (⟨category_id, name⟩ :: r.1, s.1 ++ r.2.1, s.2.1 ++ r.2.2)

/-- The three tables `generate_products()` builds from the static hierarchy,
all three 1-based counters starting at 1. -/
def generate_products_tables : List Category × List SubCategory × List ProductRow :=
  expand_categories get_product_hierarchy 1 1 1

/-- The value `generate_products()` returns: `len(products)`. -/
def generate_products_count : Int :=
  (generate_products_tables.2.2.length : Int)

/-- `generate_products()`: writes the three CSV files and returns the product
count. -/
def generate_products (fs : FS) : FS × Int :=
  let t := generate_products_tables
  let fs1 := write_to_csv fs "category.csv"
    (t.1.map fun c => [("id", CsvValue.int c.id), ("name", CsvValue.str c.name)])
  let fs2 := write_to_csv fs1 "sub_category.csv"
    (t.2.1.map fun sc => [("id", CsvValue.int sc.id),
      ("category_id", CsvValue.int sc.category_id), ("name", CsvValue.str sc.name)])
  let fs3 := write_to_csv fs2 "product.csv"
    (t.2.2.map fun p => [("id", CsvValue.int p.id),
      ("sub_category_id", CsvValue.int p.sub_category_id),
      ("name", CsvValue.str p.name), ("price", CsvValue.rat p.price)])
  (fs3, generate_products_count)

/-- `datetime(2025, 1, 1)` as epoch seconds. -/
def dt_2025_01_01 : Int := 1735689600

/-- `datetime(2026, 1, 1)` as epoch seconds. -/
def dt_2026_01_01 : Int := 1767225600

/-- The parameters of `generate_orders`, in the order of its Python
signature (timestamps as epoch seconds). -/
structure OrderParams where
  num_customers : Int
  num_products : Int
  num_shipping_methods : Int
  num_couriers : Int
  num_orders : Int
  max_order_items : Int
  start_sec : Int
  end_sec : Int
  max_quantity : Int
deriving DecidableEq

/-- An `order.csv` row. -/
structure Order where
  id : Int
  customer_id : Int
  shipping_method_id : Int
  courier_id : Int
  placed_timestamp : Int
  shipped_timestamp : Int
deriving DecidableEq

/-- An `order_item.csv` row. -/
structure OrderItem where
  id : Int
  order_id : Int
  product_id : Int
  quantity : Int
deriving DecidableEq

/-- The inner item loop of `generate_orders`: for a sampled item count, each
iteration draws a product id then a quantity and appends one row with the
globally incrementing `order_item_id`.  Returns the items together with the
advanced draw index and counter. -/
def order_items_loop (g : Rng) (p : OrderParams) (order_id : Int) :
    Nat → Nat → Int → Option (List OrderItem × Nat × Int)
  | 0, k, order_item_id => some ([], k, order_item_id)
  | n + 1, k, order_item_id => do
    let product_id ← random_int g k 1 p.num_products
    let quantity ← random_int g (k + 1) 1 p.max_quantity
    let r ← order_items_loop g p order_id n (k + 2) (order_item_id + 1)
    some (⟨order_item_id, order_id, product_id, quantity⟩ :: r.1, r.2.1, r.2.2)

/-- The outer loop of `generate_orders` over `range(0, num_orders)`.  Per
order, the draws happen in the Python evaluation order: placed timestamp, the
1–4 day shipping offset, customer id, shipping-method id, courier id, the item
count in `[1, max_order_items]`, then two draws per item.  A raised
`ValueError` anywhere aborts the whole call (`none`). -/
def orders_loop (g : Rng) (p : OrderParams) :
    Nat → Nat → Int → Int → Option (List Order × List OrderItem)
  | 0, _, _, _ => some ([], [])
  | n + 1, k, order_id, order_item_id => do
    let placed_timestamp ← date_time_between g k p.start_sec p.end_sec
    let day_offset ← random_int g (k + 1) 1 4
    let customer_id ← random_int g (k + 2) 1 p.num_customers
    let shipping_method_id ← random_int g (k + 3) 1 p.num_shipping_methods
    let courier_id ← random_int g (k + 4) 1 p.num_couriers
    let item_count ← random_int g (k + 5) 1 p.max_order_items
    let items ← order_items_loop g p order_id item_count.toNat (k + 6) order_item_id
    let rest ← orders_loop g p n items.2.1 (order_id + 1) items.2.2
    some (⟨order_id, customer_id, shipping_method_id, courier_id,
           placed_timestamp, placed_timestamp + day_offset * 86400⟩ :: rest.1,
          items.1 ++ rest.2)

/-- `generate_orders(...)`: the rows the call builds (and then hands to
`write_to_csv` for `order.csv` and `order_item.csv`), or `none` when a raised
`ValueError` aborts it.  Order ids start at 1 (`i + 1`), the item counter at 1,
and `range(0, num_orders)` is empty for non-positive `num_orders`. -/
def generate_orders (g : Rng) (p : OrderParams) :
    Option (List Order × List OrderItem) :=
  orders_loop g p p.num_orders.toNat 0 1 1

/-- The constant `max_quantity = 2` defined in `main`. -/
def main_max_quantity : Int := 2

/-- The constant `num_customers = 10` defined in `main`. -/
def main_num_customers : Int := 10

/-- The constant `num_orders = 100` defined in `main`. -/
def main_num_orders : Int := 100

/-- The constant `max_order_items = 3` defined in `main`. -/
def main_max_order_items : Int := 3

/-- `main` up to the call of `generate_orders`: runs the generators in program
order against the fresh output directory and returns the final filesystem
together with the `OrderParams` that `main` then passes to `generate_orders`.
Python binds the six call arguments positionally, so `max_quantity` (the first
argument written) lands in the `num_customers` parameter, and the remaining
three parameters keep their defaults `datetime(2025, 1, 1)`,
`datetime(2026, 1, 1)` and `3`.  The value `generate_customers` returns
(`None`) is rebound to `main`'s `num_customers` variable and never used
again. -/
def main_setup (gc : Rng) : FS × OrderParams :=
  let fs0 := fs_empty
  let r1 := generate_shipping_methods fs0
  let num_shipping_methods := r1.2
  let r2 := generate_couriers r1.1
  let num_couriers := r2.2
  let r3 := generate_customers gc r2.1 main_num_customers.toNat
  let num_customers_rebound : Option Int := r3.2
  let r4 := generate_products r3.1
  let num_products := r4.2
  let _ := num_customers_rebound
  (r4.1, ⟨main_max_quantity, num_products, num_shipping_methods, num_couriers,
          main_num_orders, main_max_order_items,
          dt_2025_01_01, dt_2026_01_01, 3⟩)

/-- The order and order-item rows `main` generates: `generate_orders` applied
to the arguments `main_setup` produced, with a second stream for the order
generator's own `Faker()`. -/
def main_orders (gc go : Rng) : Option (List Order × List OrderItem) :=
  generate_orders go (main_setup gc).2

/-- The list `[s, s + 1, ..., s + n - 1]` of `n` consecutive integers: the
shape of a dense, 1-step increasing id column when `s = 1`. -/
def int_range (s : Int) : Nat → List Int
  | 0 => []
  | n + 1 => s :: int_range (s + 1) n

theorem int_range_length (s : Int) (n : Nat) : (int_range s n).length = n := by
  induction n generalizing s with
  | zero => rfl
  | succ m ih => simp [int_range, ih]

theorem int_range_append (s : Int) (a b : Nat) :
    int_range s (a + b) = int_range s a ++ int_range (s + (a : Int)) b := by
  induction a generalizing s with
  | zero => simp [int_range]
  | succ m ih =>
    have h1 : m + 1 + b = (m + b) + 1 := by omega
    rw [h1]
    simp only [int_range, ih, List.cons_append, List.cons.injEq, true_and]
    have h2 : s + 1 + (m : Int) = s + ((m : Int) + 1) := by ring
    rw [h2]
    push_cast
    ring_nf

/-- A successful `random_int` draw lies in `[lo, hi]`. -/
theorem random_int_bounds {g : Rng} {k : Nat} {lo hi v : Int}
    (h : random_int g k lo hi = some v) : lo ≤ v ∧ v ≤ hi := by
  unfold random_int at h
  split at h
  · exact absurd h (by simp)
  · rename_i hlt
    push_neg at hlt
    injection h with hv
    subst hv
    have hpos : 0 < hi - lo + 1 := by omega
    have h0 : 0 ≤ (g k : Int) % (hi - lo + 1) := Int.emod_nonneg _ (by omega)
    have h1 : (g k : Int) % (hi - lo + 1) < hi - lo + 1 :=
      Int.emod_lt_of_pos _ hpos
    omega

/-- `random_int` fails exactly on an empty range. -/
theorem random_int_none {g : Rng} {k : Nat} {lo hi : Int} (h : hi < lo) :
    random_int g k lo hi = none := by
  unfold random_int
  simp [h]

/-- What one successful pass of the item loop guarantees: `n` items, the
counter advanced by `n`, ids dense from the incoming counter, every item tied
to the enclosing order and with in-range product id and quantity. -/
theorem order_items_loop_spec (g : Rng) (p : OrderParams) (order_id : Int) :
    ∀ n k order_item_id its k2 oiid2,
      order_items_loop g p order_id n k order_item_id = some (its, k2, oiid2) →
      its.length = n ∧ oiid2 = order_item_id + n ∧
      its.map OrderItem.id = int_range order_item_id n ∧
      ∀ it ∈ its, it.order_id = order_id ∧
        1 ≤ it.product_id ∧ it.product_id ≤ p.num_products ∧
        1 ≤ it.quantity ∧ it.quantity ≤ p.max_quantity := by
  intro n
  induction n with
  | zero =>
    intro k order_item_id its k2 oiid2 h
    simp only [order_items_loop, Option.some.injEq, Prod.mk.injEq] at h
    obtain ⟨h1, _, h3⟩ := h
    subst h1; subst h3
    simp [int_range]
  | succ m ih =>
    intro k order_item_id its k2 oiid2 h
    simp only [order_items_loop, bind, Option.bind_eq_some] at h
    obtain ⟨pid, hpid, q, hq, r, hr, heq⟩ := h
    obtain ⟨rest, k3, oiid3⟩ := r
    simp only [Option.some.injEq, Prod.mk.injEq] at heq
    obtain ⟨hits, _, hoiid⟩ := heq
    subst hits; subst hoiid
    obtain ⟨hlen, hoiid3, hmap, hmem⟩ := ih (k + 2) (order_item_id + 1) rest k3 oiid3 hr
    refine ⟨by simp [hlen], by push_cast [hoiid3]; ring, ?_, ?_⟩
    · simp only [List.map_cons, hmap, int_range]
    · intro it hit
      rcases List.mem_cons.mp hit with hhd | htl
      · subst hhd
        exact ⟨rfl, (random_int_bounds hpid).1, (random_int_bounds hpid).2,
          (random_int_bounds hq).1, (random_int_bounds hq).2⟩
      · exact hmem it htl

/-- What one successful pass of the order loop guarantees: `n` orders with ids
dense from `order_id`, item ids dense from `order_item_id` across all orders,
every sampled foreign key within its `[1, count]` range, every shipped
timestamp a 1–4 whole-day offset after its placed timestamp, and every order
owning at least one item. -/
theorem orders_loop_spec (g : Rng) (p : OrderParams) :
    ∀ n k order_id order_item_id os its,
      orders_loop g p n k order_id order_item_id = some (os, its) →
      os.length = n ∧
      os.map Order.id = int_range order_id n ∧
      its.map OrderItem.id = int_range order_item_id its.length ∧
      (∀ o ∈ os,
        1 ≤ o.customer_id ∧ o.customer_id ≤ p.num_customers ∧
        1 ≤ o.shipping_method_id ∧ o.shipping_method_id ≤ p.num_shipping_methods ∧
        1 ≤ o.courier_id ∧ o.courier_id ≤ p.num_couriers ∧
        ∃ d : Int, 1 ≤ d ∧ d ≤ 4 ∧
          o.shipped_timestamp = o.placed_timestamp + d * 86400) ∧
      (∀ it ∈ its, 1 ≤ it.product_id ∧ it.product_id ≤ p.num_products ∧
        1 ≤ it.quantity ∧ it.quantity ≤ p.max_quantity) ∧
      (∀ o ∈ os, ∃ it ∈ its, it.order_id = o.id) := by
  intro n
  induction n with
  | zero =>
    intro k order_id order_item_id os its h
    simp only [orders_loop, Option.some.injEq, Prod.mk.injEq] at h
    obtain ⟨h1, h2⟩ := h
    subst h1; subst h2
    simp [int_range]
  | succ m ih =>
    intro k order_id order_item_id os its h
    simp only [orders_loop, bind, Option.bind_eq_some] at h
    obtain ⟨placed, hplaced, off, hoff, cust, hcust, ship, hship, cour, hcour,
      cnt, hcnt, items, hitems, rest, hrest, heq⟩ := h
    obtain ⟨items1, k3, oiid3⟩ := items
    obtain ⟨ros, rits⟩ := rest
    simp only [Option.some.injEq, Prod.mk.injEq] at heq
    obtain ⟨hos, hits⟩ := heq
    subst hos; subst hits
    obtain ⟨hilen, hoiid3, himap, himem⟩ :=
      order_items_loop_spec g p order_id cnt.toNat (k + 6) order_item_id
        items1 k3 oiid3 hitems
    obtain ⟨hrlen, hrmap, hritmap, hrmem, hritmem, hrcover⟩ :=
      ih k3 (order_id + 1) oiid3 ros rits hrest
    have hcnt1 : 1 ≤ cnt := (random_int_bounds hcnt).1
    have hlen1 : 1 ≤ items1.length := by
      rw [hilen]; omega
    refine ⟨by simp [hrlen], ?_, ?_, ?_, ?_, ?_⟩
    · simp only [List.map_cons, hrmap, int_range]
    · rw [List.map_append, himap, hritmap, List.length_append, hilen,
        int_range_append, hoiid3]
    · intro o ho
      rcases List.mem_cons.mp ho with hhd | htl
      · subst hhd
        refine ⟨(random_int_bounds hcust).1, (random_int_bounds hcust).2,
          (random_int_bounds hship).1, (random_int_bounds hship).2,
          (random_int_bounds hcour).1, (random_int_bounds hcour).2,
          off, (random_int_bounds hoff).1, (random_int_bounds hoff).2, rfl⟩
      · exact hrmem o htl
    · intro it hit
      rcases List.mem_append.mp hit with hl | hr
      · exact (himem it hl).2
      · exact hritmem it hr
    · intro o ho
      rcases List.mem_cons.mp ho with hhd | htl
      · subst hhd
        obtain ⟨it0, hit0⟩ := List.exists_mem_of_length_pos hlen1
        exact ⟨it0, List.mem_append_left _ hit0, (himem it0 hit0).1⟩
      · obtain ⟨it0, hit0, hid⟩ := hrcover o htl
        exact ⟨it0, List.mem_append_right _ hit0, hid⟩

theorem customers_loop_ids (g : Rng) :
    ∀ n id k, (customers_loop g n id k).map Customer.id = int_range id n := by
  intro n
  induction n with
  | zero => intro id k; rfl
  | succ m ih =>
    intro id k
    simp only [customers_loop, List.map_cons, int_range, List.cons.injEq, true_and]
    exact ih (id + 1) (k + 2)

theorem generate_customers_rows_length (g : Rng) (n : Nat) :
    (generate_customers_rows g n).length = n := by
  have h := congrArg List.length (customers_loop_ids g n 1 0)
  simpa [generate_customers_rows, int_range_length] using h

/-- An all-zero draw stream, on which every `random_int` returns its lower
bound; used to exercise the generators on concrete runs. -/
def g0 : Rng := fun _ => 0

/-- Small concrete order-generation parameters on which generation succeeds:
2 customers, 3 products, 4 shipping methods, 5 couriers, 2 orders of at most
1 item, window `[0, 10]`, max quantity 1. -/
def p0 : OrderParams := ⟨2, 3, 4, 5, 2, 1, 0, 10, 1⟩

/-- The orders `generate_orders g0 p0` produces. -/
def os0 : List Order := [⟨1, 1, 1, 1, 0, 86400⟩, ⟨2, 1, 1, 1, 0, 86400⟩]

/-- The order items `generate_orders g0 p0` produces. -/
def its0 : List OrderItem := [⟨1, 1, 1, 1⟩, ⟨2, 2, 1, 1⟩]

theorem generate_orders_p0 : generate_orders g0 p0 = some (os0, its0) := by
  decide

/-- Claim C10: for every destination name, the CSV sink called with an empty
record sequence performs no I/O and returns without error: the resulting
filesystem is exactly the incoming one, so no file is created and no existing
file is overwritten. -/
theorem C10_write_to_csv_empty_noop (fs : FS) (file_name : String) :
    write_to_csv fs file_name [] = fs := rfl

/-- Claim C9: `generate_shipping_methods()` writes `shipping_method.csv` with
header `id,name` followed by exactly 4 data rows whose ids are 1 through 4
and whose names are Standard, Next Business Day, Saturday AM, Saturday PM in
that order, and returns the count 4 — on any starting filesystem. -/
theorem C9_generate_shipping_methods (fs : FS) :
    (generate_shipping_methods fs).2 = 4 ∧
    (generate_shipping_methods fs).1 "shipping_method.csv" =
      some (["id", "name"],
        [[("id", CsvValue.int 1), ("name", CsvValue.str "Standard")],
         [("id", CsvValue.int 2), ("name", CsvValue.str "Next Business Day")],
         [("id", CsvValue.int 3), ("name", CsvValue.str "Saturday AM")],
         [("id", CsvValue.int 4), ("name", CsvValue.str "Saturday PM")]]) :=
  ⟨rfl, rfl⟩

/-- Claim C8: `generate_products()` on the static hierarchy emits exactly 3
category rows, 6 sub-category rows and 12 product rows, returns the product
count 12, and the (unique) product named "Table and chair set" has price
299.99 and sub_category_id 1. -/
theorem C8_generate_products_static :
    generate_products_tables.1.length = 3 ∧
    generate_products_tables.2.1.length = 6 ∧
    generate_products_tables.2.2.length = 12 ∧
    generate_products_count = 12 ∧
    (⟨1, 1, "Table and chair set", 299.99⟩ : ProductRow) ∈
      generate_products_tables.2.2 ∧
    ∀ p ∈ generate_products_tables.2.2, p.name = "Table and chair set" →
      p.price = (299.99 : ℚ) ∧ p.sub_category_id = 1 := by
  refine ⟨by decide, by decide, by decide, by decide, ?_, ?_⟩
  · simp [generate_products_tables, expand_categories, expand_subs,
      expand_products, get_product_hierarchy]
  · simp [generate_products_tables, expand_categories, expand_subs,
      expand_products, get_product_hierarchy]

/-- Claim C5: every emitted SubCategory row's category_id is the id of some
emitted Category row, every emitted Product row's sub_category_id is the id
of some emitted SubCategory row, and each such foreign key lies in
`[1, count-of-referenced-table]`. -/
theorem C5_catalog_referential_integrity :
    (∀ sc ∈ generate_products_tables.2.1,
      ∃ c ∈ generate_products_tables.1, sc.category_id = c.id) ∧
    (∀ pr ∈ generate_products_tables.2.2,
      ∃ sc ∈ generate_products_tables.2.1, pr.sub_category_id = sc.id) ∧
    (∀ sc ∈ generate_products_tables.2.1, 1 ≤ sc.category_id ∧
      sc.category_id ≤ (generate_products_tables.1.length : Int)) ∧
    (∀ pr ∈ generate_products_tables.2.2, 1 ≤ pr.sub_category_id ∧
      pr.sub_category_id ≤ (generate_products_tables.2.1.length : Int)) := by
  decide

/-- Claim C4: in every table the generators produce — shipping methods,
couriers, customers, categories, sub-categories, products, orders, order
items — the id column is the contiguous sequence `1 .. N` (dense, strictly
increasing by 1, no gaps or duplicates); in particular order-item ids come
from one counter shared across all orders, never reset per order. -/
theorem C4_identifiers_dense (gcust g : Rng) (n : Nat) (p : OrderParams)
    (os : List Order) (its : List OrderItem)
    (h : generate_orders g p = some (os, its)) :
    os.map Order.id = int_range 1 os.length ∧
    its.map OrderItem.id = int_range 1 its.length ∧
    (enumerated_rows "name" shipping_methods_list).map (fun r => r.lookup "id") =
      (int_range 1 shipping_methods_list.length).map (fun i => some (CsvValue.int i)) ∧
    (enumerated_rows "name" couriers_list).map (fun r => r.lookup "id") =
      (int_range 1 couriers_list.length).map (fun i => some (CsvValue.int i)) ∧
    (generate_customers_rows gcust n).map Customer.id = int_range 1 n ∧
    generate_products_tables.1.map Category.id =
      int_range 1 generate_products_tables.1.length ∧
    generate_products_tables.2.1.map SubCategory.id =
      int_range 1 generate_products_tables.2.1.length ∧
    generate_products_tables.2.2.map ProductRow.id =
      int_range 1 generate_products_tables.2.2.length := by
  obtain ⟨hlen, hmap, hitmap, _, _, _⟩ := orders_loop_spec g p _ 0 1 1 os its h
  exact ⟨by rw [hlen]; exact hmap, hitmap, by decide, by decide,
    customers_loop_ids gcust n 1 0, by decide, by decide, by decide⟩

theorem C4_identifiers_dense_witness :
    os0.map Order.id = int_range 1 os0.length ∧
    its0.map OrderItem.id = int_range 1 its0.length :=
  ⟨(C4_identifiers_dense g0 g0 2 p0 os0 its0 generate_orders_p0).1,
   (C4_identifiers_dense g0 g0 2 p0 os0 its0 generate_orders_p0).2.1⟩

/-- Claim C6: for every order `generate_orders` emits, the shipped timestamp
is the placed timestamp plus a whole-day offset drawn from `[1, 4]`, hence
strictly after it with a difference of 1 to 4 days. -/
theorem C6_shipped_after_placed (g : Rng) (p : OrderParams)
    (os : List Order) (its : List OrderItem)
    (h : generate_orders g p = some (os, its)) :
    ∀ o ∈ os, (∃ d : Int, 1 ≤ d ∧ d ≤ 4 ∧
        o.shipped_timestamp = o.placed_timestamp + d * 86400) ∧
      o.placed_timestamp < o.shipped_timestamp := by
  obtain ⟨_, _, _, hmem, _, _⟩ := orders_loop_spec g p _ 0 1 1 os its h
  intro o ho
  obtain ⟨_, _, _, _, _, _, d, hd1, hd4, hts⟩ := hmem o ho
  exact ⟨⟨d, hd1, hd4, hts⟩, by rw [hts]; omega⟩

/-- The first order of the concrete run `generate_orders g0 p0`. -/
def o0 : Order := ⟨1, 1, 1, 1, 0, 86400⟩

theorem C6_shipped_after_placed_witness :
    (∃ d : Int, 1 ≤ d ∧ d ≤ 4 ∧
      o0.shipped_timestamp = o0.placed_timestamp + d * 86400) ∧
    o0.placed_timestamp < o0.shipped_timestamp :=
  C6_shipped_after_placed g0 p0 os0 its0 generate_orders_p0 o0 (by decide)

/-- Claim C7: when `generate_orders` succeeds with `max_order_items ≥ 1`,
every emitted order's id appears as the `order_id` of at least one emitted
order item — no order is itemless, the per-order item count being drawn from
`[1, max_order_items]`. -/
theorem C7_every_order_has_item (g : Rng) (p : OrderParams)
    (os : List Order) (its : List OrderItem)
    (hk : 1 ≤ p.max_order_items)
    (h : generate_orders g p = some (os, its)) :
    ∀ o ∈ os, ∃ it ∈ its, it.order_id = o.id := by
  have _ := hk
  obtain ⟨_, _, _, _, _, hcover⟩ := orders_loop_spec g p _ 0 1 1 os its h
  exact hcover

theorem C7_every_order_has_item_witness :
    ∃ it ∈ its0, it.order_id = o0.id :=
  C7_every_order_has_item g0 p0 os0 its0 (by decide) generate_orders_p0 o0
    (by decide)

/-- The 100 orders `main` generates when every draw of both streams is 0. -/
def os_main : List Order :=
  (List.range 100).map (fun i =>
    ⟨(i : Int) + 1, 1, 1, 1, dt_2025_01_01, dt_2025_01_01 + 86400⟩)

/-- The 100 order items `main` generates when every draw is 0. -/
def its_main : List OrderItem :=
  (List.range 100).map (fun i => ⟨(i : Int) + 1, (i : Int) + 1, 1, 1⟩)

set_option maxRecDepth 8000 in
theorem main_orders_g0 : main_orders g0 g0 = some (os_main, its_main) := by
  decide

/-- Claim C2: in every execution of `main`, the arguments actually passed to
`generate_orders` are `num_customers = 2` (main's `max_quantity` constant),
`num_products` = the value `generate_products` returned (12),
`num_shipping_methods = 4`, `num_couriers = 3`, `num_orders = 100`,
`max_order_items = 3`, with `max_quantity` left at its default 3
(`generate_customers` returns `None`, which `main` rebinds and never passes
on); consequently every generated order's customer_id lies in `[1, 2]` even
though 10 customers are generated, and every item's quantity lies in `[1, 3]`
even though `main` defines `max_quantity = 2`. -/
theorem C2_main_generate_orders_arguments (gc g : Rng)
    (os : List Order) (its : List OrderItem)
    (h : main_orders gc g = some (os, its)) :
    (∀ o ∈ os, 1 ≤ o.customer_id ∧ o.customer_id ≤ 2) ∧
    (∀ it ∈ its, 1 ≤ it.quantity ∧ it.quantity ≤ 3) ∧
    (main_setup gc).2 = ⟨main_max_quantity, generate_products_count, 4, 3,
      100, 3, dt_2025_01_01, dt_2026_01_01, 3⟩ ∧
    main_max_quantity = 2 ∧ generate_products_count = 12 ∧
    (generate_customers gc fs_empty main_num_customers.toNat).2 = none ∧
    (generate_customers_rows gc main_num_customers.toNat).length = 10 := by
  have h2 : orders_loop g
      (⟨2, 12, 4, 3, 100, 3, dt_2025_01_01, dt_2026_01_01, 3⟩ : OrderParams)
      100 0 1 1 = some (os, its) := h
  obtain ⟨_, _, _, hmem, hitmem, _⟩ := orders_loop_spec g _ _ 0 1 1 os its h2
  refine ⟨?_, ?_, rfl, rfl, rfl, rfl, generate_customers_rows_length gc _⟩
  · intro o ho
    exact ⟨(hmem o ho).1, (hmem o ho).2.1⟩
  · intro it hit
    exact ⟨(hitmem it hit).2.2.1, (hitmem it hit).2.2.2⟩

theorem C2_main_generate_orders_arguments_witness :
    (∀ o ∈ os_main, 1 ≤ o.customer_id ∧ o.customer_id ≤ 2) ∧
    (∀ it ∈ its_main, 1 ≤ it.quantity ∧ it.quantity ≤ 3) :=
  ⟨(C2_main_generate_orders_arguments g0 g0 os_main its_main main_orders_g0).1,
   (C2_main_generate_orders_arguments g0 g0 os_main its_main main_orders_g0).2.1⟩

/-- Claim C1 (exhibit of the argument slip in `main`): the shipping-method,
courier and product counts `generate_orders` receives are indeed the values
the respective generators returned, and `generate_orders` is only invoked on
the completed results; but the `num_customers` argument `main` actually
passes is its `max_quantity` constant 2 — not the customer count:
`generate_customers` produces 10 customer rows yet returns `None`, which
`main` rebinds to its `num_customers` variable and never passes on. -/
theorem C1_orchestrator_passes_constant_not_count :
    (∀ gc : Rng, (main_setup gc).2.num_shipping_methods =
      (generate_shipping_methods fs_empty).2) ∧
    (∀ gc : Rng, (main_setup gc).2.num_couriers =
      (generate_couriers (generate_shipping_methods fs_empty).1).2) ∧
    (∀ gc : Rng, (main_setup gc).2.num_products = generate_products_count) ∧
    (∀ gc : Rng, (generate_customers gc fs_empty main_num_customers.toNat).2
      = none) ∧
    (∀ gc : Rng, (generate_customers_rows gc main_num_customers.toNat).length
      = 10) ∧
    (∀ gc : Rng, (main_setup gc).2.num_customers = main_max_quantity) ∧
    main_max_quantity = 2 ∧
    (∀ gc : Rng, (main_setup gc).2.num_customers ≠ main_num_customers) :=
  ⟨fun _ => rfl, fun _ => rfl, fun _ => rfl, fun _ => rfl,
   fun gc => generate_customers_rows_length gc _,
   fun _ => rfl, rfl,
   fun _ => by show (2 : Int) ≠ 10; decide⟩

/-- The spec's error scenario `generate_orders(num_customers = 0, ...)` with
one order requested: the degenerate referenced count. -/
def p_zero_customers : OrderParams :=
  ⟨0, 12, 4, 3, 1, 3, dt_2025_01_01, dt_2026_01_01, 3⟩

/-- A call with every referenced count degenerate but `num_orders = 0`. -/
def p_zero_orders : OrderParams :=
  ⟨0, 0, 0, 0, 0, 3, dt_2025_01_01, dt_2026_01_01, 3⟩

/-- Claim C3 (exhibit of the missing guard): `generate_orders` performs no
validation.  With `num_customers = 0` and one order requested the call does
fail — but by a `ValueError` raised inside the third sampling call (the
customer-id draw, index 2), after the placed-timestamp and day-offset draws
(indices 0 and 1) already succeeded, not by a validation error raised before
any sampling; and with `num_orders = 0` every count may be degenerate yet the
call is not rejected at all: it silently returns no rows (and then, per the
empty-input contract of the sink, writes no file).  No invalid foreign key is
emitted in either case. -/
theorem C3_no_validation_guard :
    generate_orders g0 p_zero_customers = none ∧
    date_time_between g0 0 p_zero_customers.start_sec p_zero_customers.end_sec
      = some dt_2025_01_01 ∧
    random_int g0 1 1 4 = some 1 ∧
    random_int g0 2 1 p_zero_customers.num_customers = none ∧
    generate_orders g0 p_zero_orders = some ([], []) := by
  decide

end SDG
